import Mathlib

/-!
Shallow embedding of the request/response correlation and reliability core of
the foundry-mcp-server repository: the session/transport manager and document
mutation gateway (`src/foundry-client.ts`) and the out-of-band RPC correlator
(`src/rpc.ts`).  Stateful TypeScript methods become explicit state-passing
functions; the outcomes of external I/O (HTTP fetches, socket events, timers)
are passed in as explicit environment values; side effects on promises and
timers are recorded as effect lists.
-/

namespace FoundryMcp

/-! ## Out-of-band RPC correlator (src/rpc.ts) -/

/-- Fields of an inbound module-channel message object that the correlator
reads (`msg.type`, `msg.requestId`, and the payload fields of an
`RpcResponse` / `RpcPong`).  Absent fields are `none`. -/
structure MsgObj where
  type : String
  requestId : String
  success : Bool
  result : Option String
  error : Option String
  duration : Option Nat
  moduleVersion : Option String
  userId : Option String
  deriving Repr, DecidableEq

/-- An inbound `data: unknown` value: either not an object (null, string, ...)
or an object with the fields above. -/
inductive Inbound
  | notObject
  | obj (m : MsgObj)
  deriving Repr, DecidableEq

/-- A pending request entry: the registered timeout timer handle.  The
resolve/reject closures are modelled as effects naming the requestId. -/
structure PendingRequest where
  timer : Nat
  deriving Repr, DecidableEq

/-- The `pending` Map of the correlator, as an association list with unique
keys (JS `Map` keys are unique). -/
abbrev PendingMap := List (String × PendingRequest)

/-- `Map.get`: first (only) entry with the key. -/
def mapGet (m : PendingMap) (k : String) : Option PendingRequest :=
  match m with
  | [] => none
  | (k2, v) :: rest => if k2 == k then some v else mapGet rest k

/-- `Map.delete`: remove the entry with the key. -/
def mapDelete (m : PendingMap) (k : String) : PendingMap :=
  m.filter (fun e => !(e.1 == k))

/-- `Map.set`: insert, replacing any existing entry with the key. -/
def mapSet (m : PendingMap) (k : String) (v : PendingRequest) : PendingMap :=
  (k, v) :: mapDelete m k

/-- Observable side effects of the correlator on timers, promises and the
socket listener. -/
inductive RpcEffect
  | clearTimer (timer : Nat)
  | resolveWith (requestId : String) (payload : MsgObj)
  | rejectWith (requestId : String) (message : String)
  | detachListener
  deriving Repr, DecidableEq

/-- `FoundryRpc.handleMessage`: on an object of type `rpc-response` whose
`requestId` has a pending entry, clear its timer, delete the entry and
resolve it with the whole message; otherwise do nothing. -/
def handleMessage (pending : PendingMap) (data : Inbound) :
    PendingMap × List RpcEffect :=
  match data with
  | .notObject => (pending, [])
  | .obj m =>
    if m.type == "rpc-response" then
      match mapGet pending m.requestId with
      | some p =>
        (mapDelete pending m.requestId,
         [.clearTimer p.timer, .resolveWith m.requestId m])
      | none => (pending, [])
    else (pending, [])

/-- `FoundryRpc.call`: registration of the pending entry keyed by the fresh
requestId, with its timer. -/
def callRegister (pending : PendingMap) (requestId : String) (timer : Nat) :
    PendingMap :=
  mapSet pending requestId ⟨timer⟩

/-- The timeout rejection message of `FoundryRpc.call`. -/
def timeoutMessage (method : String) (timeoutMs : Nat) : String :=
  "RPC call \"" ++ method ++ "\" timed out after " ++ toString timeoutMs ++
    "ms. Ensure a GM user has the foundry-mcp-bridge module active in a browser."

/-- The timer callback of `FoundryRpc.call`: delete the pending entry and
reject with the timeout message. -/
def callOnTimeout (pending : PendingMap) (requestId method : String)
    (timeoutMs : Nat) : PendingMap × List RpcEffect :=
  (mapDelete pending requestId,
   [.rejectWith requestId (timeoutMessage method timeoutMs)])

/-- The emission-failure (`.catch`) path of `FoundryRpc.call`: clear the
timer, delete the pending entry and reject with the emission error. -/
def callOnEmitFailure (pending : PendingMap) (requestId : String)
    (timer : Nat) (err : String) : PendingMap × List RpcEffect :=
  (mapDelete pending requestId, [.clearTimer timer, .rejectWith requestId err])

/-- State of the `FoundryRpc` instance beyond the pending map. -/
structure RpcSysState where
  pending : PendingMap
  listenerAttached : Bool
  hasMessageHandler : Bool
  deriving Repr, DecidableEq

/-- `FoundryRpc.destroy`: clear and reject every pending entry with the
shutdown error, then detach the shared listener when one is attached. -/
def destroy (s : RpcSysState) : RpcSysState × List RpcEffect :=
  let shutdownEffects := s.pending.flatMap (fun e =>
    [RpcEffect.clearTimer e.2.timer,
     RpcEffect.rejectWith e.1 "RPC system shutting down"])
  if s.hasMessageHandler then
    ({ pending := [], listenerAttached := false, hasMessageHandler := false },
     shutdownEffects ++ [RpcEffect.detachListener])
  else
    ({ s with pending := [] }, shutdownEffects)

/-- Result of `FoundryRpc.ping`. -/
structure PingResult where
  alive : Bool
  moduleVersion : Option String
  userId : Option String
  deriving Repr, DecidableEq

/-- Environment of one `ping` run: the connection attempt may throw, the
emission may fail, or the call observes the inbound messages that arrive on
the module channel before `timeoutMs` elapses. -/
inductive PingEnv
  | connectFail (err : String)
  | emitFail (err : String)
  | window (msgs : List Inbound)
  deriving Repr, DecidableEq

/-- What one `ping` run produced: its resolved value, whether the temporary
pong listener remains attached afterwards, and whether an exception escaped
to the caller. -/
structure PingRun where
  result : PingResult
  noListenerRemains : Bool
  threw : Bool
  deriving Repr, DecidableEq

/-- The pong handler's match test, applied in arrival order: first message
that is an object with type `rpc-pong` and the matching requestId. -/
def findPong (requestId : String) (msgs : List Inbound) : Option MsgObj :=
  match msgs with
  | [] => none
  | .notObject :: rest => findPong requestId rest
  | .obj m :: rest =>
    if m.type == "rpc-pong" && m.requestId == requestId then some m
    else findPong requestId rest

/-- `FoundryRpc.ping`: a connection failure is caught and resolves
`alive: false` (the listener was never attached); an emission failure clears
the timer, detaches the listener and resolves `alive: false`; a matching pong
within the window detaches the listener and resolves `alive: true` with the
responder's fields; otherwise the timer fires, detaches the listener and
resolves `alive: false`. -/
def ping (requestId : String) (env : PingEnv) : PingRun :=
  match env with
  | .connectFail _ => ⟨⟨false, none, none⟩, true, false⟩
  | .emitFail _ => ⟨⟨false, none, none⟩, true, false⟩
  | .window msgs =>
    match findPong requestId msgs with
    | some m => ⟨⟨true, m.moduleVersion, m.userId⟩, true, false⟩
    | none => ⟨⟨false, none, none⟩, true, false⟩

/-! ### Map lemmas -/

theorem mapGet_mapDelete_self (m : PendingMap) (k : String) :
    mapGet (mapDelete m k) k = none := by
  induction m with
  | nil => rfl
  | cons e rest ih =>
    by_cases h : e.1 == k
    · simpa [mapDelete, List.filter, h] using ih
    · simp only [mapDelete, List.filter, h] at ih ⊢
      simp [mapGet, h, ih]

theorem handleMessage_deleted_noop (pending : PendingMap) (m : MsgObj)
    (hid : mapGet pending m.requestId = none) :
    handleMessage pending (.obj m) = (pending, []) := by
  unfold handleMessage
  by_cases ht : m.type == "rpc-response" <;> simp [ht, hid]

/-! ## Session/transport manager and document gateway (src/foundry-client.ts) -/

/-- The `FoundryConfig` of the client. -/
structure FoundryConfig where
  url : String
  userId : String
  password : String
  deriving Repr, DecidableEq

/-- The world/version metadata snapshot returned by `GET /api/status`. -/
structure WorldInfo where
  active : Bool
  version : String
  deriving Repr, DecidableEq

/-- The `ConnectionState` enumeration of src/types.ts. -/
inductive ConnectionState
  | disconnected
  | authenticating
  | connecting
  | connected
  | ready
  deriving Repr, DecidableEq

/-- The socket.io handle: all the client reads from it is `socket.connected`. -/
structure SocketHandle where
  connected : Bool
  deriving Repr, DecidableEq

/-- The `error` member of a `DocumentSocketResponse`; `message` is `none`
when the field is absent at runtime. -/
structure SocketErr where
  message : Option String
  deriving Repr, DecidableEq

/-- A `DocumentSocketResponse` callback reply: an optional `result` (opaque
document list) and an optional `error`. -/
structure DocumentSocketResponse where
  result : Option (List String)
  error : Option SocketErr
  deriving Repr, DecidableEq

/-- The mutable instance fields of `FoundryClient`.  `connectPromise` holds
the identifier of the in-flight connection attempt, when one exists. -/
structure ClientState where
  socket : Option SocketHandle
  sessionId : Option String
  state : ConnectionState
  worldInfo : Option WorldInfo
  userId : Option String
  connectPromise : Option Nat
  deriving Repr, DecidableEq

/-- `this.socket?.connected === true`. -/
def socketConnected (s : ClientState) : Bool :=
  match s.socket with
  | some sk => sk.connected
  | none => false

/-- The `isReady` getter: state is `ready` and the channel is live. -/
def isReady (s : ClientState) : Bool :=
  s.state == .ready && socketConnected s

/-- What one call to `ensureConnected` does synchronously: return on the
fast path, join the in-flight attempt, or start a fresh attempt (recording
its identifier in `connectPromise`). -/
inductive EnsureAction
  | noop
  | joinExisting (attempt : Nat)
  | startNew (attempt : Nat)
  deriving Repr, DecidableEq

/-- The synchronous prefix of `ensureConnected`: the fast path when ready,
otherwise return the in-flight promise when one is set, otherwise store a
fresh attempt (identified by `fresh`) in `connectPromise` and return it. -/
def ensureConnectedSync (s : ClientState) (fresh : Nat) :
    ClientState × EnsureAction :=
  if isReady s then (s, .noop)
  else
    match s.connectPromise with
    | some a => (s, .joinExisting a)
    | none => ({ s with connectPromise := some fresh }, .startNew fresh)

/-- A burst of logically concurrent `ensureConnected` calls: each call's
synchronous prefix runs to completion (event-loop atomicity) before the
next, with no attempt settling in between. -/
def runEnsureCalls (s : ClientState) (ids : List Nat) :
    ClientState × List EnsureAction :=
  match ids with
  | [] => (s, [])
  | i :: rest =>
    let step := ensureConnectedSync s i
    let next := runEnsureCalls step.1 rest
    (next.1, step.2 :: next.2)

/-- The `.finally` handler installed by `ensureConnected`: when the attempt
settles (resolved or rejected), clear the shared in-flight reference. -/
def connectSettled (s : ClientState) : ClientState :=
  { s with connectPromise := none }

/-- Outcome of the `GET /api/status` probe. -/
inductive StatusOutcome
  | httpError (code : Nat)
  | ok (info : WorldInfo)
  deriving Repr, DecidableEq

/-- Outcome of the `POST /join` authentication exchange. -/
inductive AuthOutcome
  | noCookie (body : String)
  | cookieNoMatch (cookie : String)
  | ok (token : String)
  deriving Repr, DecidableEq

/-- Outcome of the socket.io channel open and `session` handshake. -/
inductive SocketOutcome
  | timeout
  | connectError (msg : String)
  | sessionRejected
  | sessionOk (userId : String)
  deriving Repr, DecidableEq

/-- The external outcomes one whole connection attempt can observe. -/
structure ConnectEnv where
  status : StatusOutcome
  auth : AuthOutcome
  sock : SocketOutcome
  deriving Repr, DecidableEq

/-- `fetchStatus`: throws when the HTTP response is not ok, else returns the
parsed `WorldInfo`. -/
def fetchStatus (cfg : FoundryConfig) (o : StatusOutcome) :
    Except String WorldInfo :=
  match o with
  | .httpError code =>
    .error ("Foundry VTT is not reachable at " ++ cfg.url ++ " (HTTP " ++
      toString code ++ ")")
  | .ok info => .ok info

/-- `authenticate`: throws when no session cookie is returned or when the
cookie holds no `session=` token, else returns the token. -/
def authenticate (o : AuthOutcome) : Except String String :=
  match o with
  | .noCookie body =>
    .error ("Authentication failed: no session cookie returned. Response: " ++ body)
  | .cookieNoMatch c =>
    .error ("Authentication failed: session cookie not found in: " ++ c)
  | .ok tok => .ok tok

/-- `connectSocket`: assigns a fresh socket, then either times out, fails
with a connect error, observes a `session` event without a userId (which
disconnects the socket; the registered disconnect handler then sets state
`disconnected`, keeping the session token since the reason is a client
disconnect), or observes a confirming `session` event and stores the
userId. -/
def connectSocket (s : ClientState) (o : SocketOutcome) :
    ClientState × Except String Unit :=
  let s1 : ClientState := { s with socket := some ⟨false⟩ }
  match o with
  | .timeout => (s1, .error "Socket.io connection timed out after 10s")
  | .connectError m => (s1, .error ("Socket.io connection failed: " ++ m))
  | .sessionRejected =>
    ({ s1 with socket := some ⟨false⟩, state := .disconnected },
     .error "Foundry rejected the session. Check FOUNDRY_USER_ID and ensure the world is loaded.")
  | .sessionOk uid =>
    ({ s1 with socket := some ⟨true⟩, userId := some uid }, .ok ())

/-- `connect`: set state `authenticating`, probe the status (storing the
snapshot), fail with the no-active-world error (resetting state to
`disconnected`) when the world is inactive, authenticate and store the
session token, set state `connecting`, open the channel, and on success set
state `ready`.  A thrown step propagates with no further state change. -/
def connect (cfg : FoundryConfig) (s : ClientState) (env : ConnectEnv) :
    ClientState × Except String Unit :=
  let s1 : ClientState := { s with state := .authenticating }
  match fetchStatus cfg env.status with
  | .error e => (s1, .error e)
  | .ok info =>
    let s2 : ClientState := { s1 with worldInfo := some info }
    if info.active = false then
      ({ s2 with state := .disconnected },
       .error "Foundry VTT has no active world. Please load a world first.")
    else
      match authenticate env.auth with
      | .error e => (s2, .error e)
      | .ok tok =>
        let s3 : ClientState :=
          { s2 with sessionId := some tok, state := .connecting }
        match connectSocket s3 env.sock with
        | (s4, .error e) => (s4, .error e)
        | (s4, .ok _) => ({ s4 with state := .ready }, .ok ())

/-- The sequential behaviour of `await this.ensureConnected()` when no other
attempt is in flight: the fast path when ready, otherwise one full `connect`
attempt whose settling clears the in-flight reference. -/
def ensureConnectedRun (cfg : FoundryConfig) (s : ClientState)
    (env : ConnectEnv) : ClientState × Except String Unit :=
  if isReady s then (s, .ok ())
  else
    let r := connect cfg s env
    (connectSettled r.1, r.2)

/-- `String.prototype.includes`: `strContainsAux pat l` scans `l` for a
position where `pat` is a prefix. -/
def strContainsAux (pat : List Char) : List Char → Bool
  | [] => pat.isPrefixOf []
  | c :: rest => pat.isPrefixOf (c :: rest) || strContainsAux pat rest

/-- `s.includes(pat)` in JS. -/
def strContains (s pat : String) : Bool :=
  strContainsAux pat.data s.data

/-- The transport-fault test of the retrying helpers: the thrown message
contains "timed out", "disconnected" or "Not connected", or the socket is
not connected at failure time. -/
def isTransportFailure (s : ClientState) (msg : String) : Bool :=
  strContains msg "timed out" || strContains msg "disconnected" ||
    strContains msg "Not connected" || !(socketConnected s)

/-- The teardown performed before the one retry: state `disconnected`,
session token cleared, socket disconnected and discarded. -/
def teardown (s : ClientState) : ClientState :=
  { s with state := .disconnected, sessionId := none, socket := none }

/-- A transport-level socket drop between the `await ensureConnected()`
resume and the emission attempt: the disconnect handler sets state
`disconnected` (the reason is not a server kick, so the session token is
kept) and the socket reports itself not connected. -/
def socketDropped (s : ClientState) : ClientState :=
  { s with state := .disconnected,
           socket := s.socket.map (fun _ => ⟨false⟩) }

/-- The client state at the emission attempt: either unchanged after the
ensure, or affected by an interleaved transport-level socket drop. -/
def afterEnsureState (s : ClientState) (drop : Bool) : ClientState :=
  if drop then socketDropped s else s

/-- Outcome of one awaited callback-style emission: the 30s timer fires, or
the callback reply arrives. -/
inductive EmitOutcome
  | timeout
  | reply (resp : DocumentSocketResponse)
  deriving Repr, DecidableEq

/-- `response.error.message || "Unknown Foundry error"`: the fallback fires
when the message is absent or empty (JS falsiness). -/
def socketErrMessage (e : SocketErr) : String :=
  match e.message with
  | some m => if m == "" then "Unknown Foundry error" else m
  | none => "Unknown Foundry error"

/-- `_emitModifyDocument`: reject when the socket is not connected; reject
with the fixed timeout message when the timer fires; translate an
error-bearing reply into a rejection with the embedded message or the
generic fallback; resolve with the reply otherwise. -/
def emitModifyDocument (s : ClientState) (o : EmitOutcome) :
    Except String DocumentSocketResponse :=
  if socketConnected s = false then .error "Not connected to Foundry VTT"
  else
    match o with
    | .timeout => .error "Foundry socket request timed out after 30s"
    | .reply resp =>
      match resp.error with
      | some e => .error (socketErrMessage e)
      | none => .ok resp

/-- Trace of one `modifyDocument` run: the final client state, the outcome,
how many emission attempts were made, how many teardown-reconnect cycles
ran, and the state right after the teardown when one happened. -/
structure CallRun where
  final : ClientState
  result : Except String DocumentSocketResponse
  attempts : Nat
  reconnects : Nat
  teardownState : Option ClientState
  deriving Repr

/-- `modifyDocument`: ensure the connection, attempt the emission once, and
on a transport-indicating failure tear down the channel and session, ensure
the connection again and retry exactly once; a non-transport failure, or a
failure of the retry, propagates. -/
def modifyDocument (cfg : FoundryConfig) (s : ClientState) (env : ConnectEnv)
    (drop : Bool) (first : EmitOutcome) (retryEnv : ConnectEnv)
    (second : EmitOutcome) : CallRun :=
  let e0 := ensureConnectedRun cfg s env
  match e0.2 with
  | .error e => ⟨e0.1, .error e, 0, 0, none⟩
  | .ok _ =>
    let s1 := afterEnsureState e0.1 drop
    match emitModifyDocument s1 first with
    | .ok resp => ⟨s1, .ok resp, 1, 0, none⟩
    | .error msg =>
      if isTransportFailure s1 msg then
        let t := teardown s1
        let e1 := ensureConnectedRun cfg t retryEnv
        match e1.2 with
        | .error e => ⟨e1.1, .error e, 1, 1, some t⟩
        | .ok _ => ⟨e1.1, emitModifyDocument e1.1 second, 2, 1, some t⟩
      else ⟨s1, .error msg, 1, 0, none⟩

/-- `_emitSocket` and `_emitSocketArgs`: reject when the socket is not
connected; reject with the event-naming timeout message when the 30s timer
fires; resolve with the (opaque) callback response otherwise.  Neither
inspects the response. -/
def emitSocketOnce (s : ClientState) (event : String) (o : EmitOutcome) :
    Except String DocumentSocketResponse :=
  if socketConnected s = false then .error "Not connected to Foundry VTT"
  else
    match o with
    | .timeout =>
      .error ("Foundry socket request \"" ++ event ++ "\" timed out after 30s")
    | .reply resp => .ok resp

/-- Trace of one generic socket helper run. -/
structure SocketCallRun where
  final : ClientState
  result : Except String DocumentSocketResponse
  attempts : Nat
  reconnects : Nat
  deriving Repr

/-- `emitSocket`: the callback-only helper, with the same
retry-once-on-transport-fault policy as `modifyDocument`. -/
def emitSocket (cfg : FoundryConfig) (s : ClientState) (env : ConnectEnv)
    (drop : Bool) (event : String) (first : EmitOutcome)
    (retryEnv : ConnectEnv) (second : EmitOutcome) : SocketCallRun :=
  let e0 := ensureConnectedRun cfg s env
  match e0.2 with
  | .error e => ⟨e0.1, .error e, 0, 0⟩
  | .ok _ =>
    let s1 := afterEnsureState e0.1 drop
    match emitSocketOnce s1 event first with
    | .ok resp => ⟨s1, .ok resp, 1, 0⟩
    | .error msg =>
      if isTransportFailure s1 msg then
        let t := teardown s1
        let e1 := ensureConnectedRun cfg t retryEnv
        match e1.2 with
        | .error e => ⟨e1.1, .error e, 1, 1⟩
        | .ok _ => ⟨e1.1, emitSocketOnce e1.1 event second, 2, 1⟩
      else ⟨s1, .error msg, 1, 0⟩

/-- `emitSocketArgs`: the multi-argument helper; its body repeats the
`emitSocket` policy verbatim over `_emitSocketArgs`. -/
def emitSocketArgs (cfg : FoundryConfig) (s : ClientState) (env : ConnectEnv)
    (drop : Bool) (event : String) (first : EmitOutcome)
    (retryEnv : ConnectEnv) (second : EmitOutcome) : SocketCallRun :=
  let e0 := ensureConnectedRun cfg s env
  match e0.2 with
  | .error e => ⟨e0.1, .error e, 0, 0⟩
  | .ok _ =>
    let s1 := afterEnsureState e0.1 drop
    match emitSocketOnce s1 event first with
    | .ok resp => ⟨s1, .ok resp, 1, 0⟩
    | .error msg =>
      if isTransportFailure s1 msg then
        let t := teardown s1
        let e1 := ensureConnectedRun cfg t retryEnv
        match e1.2 with
        | .error e => ⟨e1.1, .error e, 1, 1⟩
        | .ok _ => ⟨e1.1, emitSocketOnce e1.1 event second, 2, 1⟩
      else ⟨s1, .error msg, 1, 0⟩

/-- Trace of one `emitSocketRaw` run (fire-and-forget: no reply). -/
structure RawCallRun where
  final : ClientState
  result : Except String Unit
  attempts : Nat
  reconnects : Nat
  deriving Repr

/-- `emitSocketRaw`: ensure the connection, throw "Not connected to Foundry
VTT" when the socket is not connected, else emit.  It has no try/catch and
no retry. -/
def emitSocketRaw (cfg : FoundryConfig) (s : ClientState) (env : ConnectEnv)
    (drop : Bool) : RawCallRun :=
  let e0 := ensureConnectedRun cfg s env
  match e0.2 with
  | .error e => ⟨e0.1, .error e, 0, 0⟩
  | .ok _ =>
    let s1 := afterEnsureState e0.1 drop
    if socketConnected s1 = false then
      ⟨s1, .error "Not connected to Foundry VTT", 1, 0⟩
    else ⟨s1, .ok (), 1, 0⟩



/-! ### Substring lemmas for the retry classifier and message contracts -/

theorem isPrefixOf_append_self (pat l : List Char) :
    pat.isPrefixOf (pat ++ l) = true := by
  induction pat with
  | nil => simp [List.isPrefixOf]
  | cons c cs ih => simp [List.isPrefixOf, ih]

theorem strContainsAux_of_isPrefixOf (pat l : List Char)
    (h : pat.isPrefixOf l = true) : strContainsAux pat l = true := by
  cases l with
  | nil => simpa [strContainsAux] using h
  | cons c rest => simp [strContainsAux, h]

theorem strContainsAux_append_left (pat l1 l2 : List Char)
    (h : strContainsAux pat l2 = true) :
    strContainsAux pat (l1 ++ l2) = true := by
  induction l1 with
  | nil => simpa using h
  | cons c cs ih => simp [strContainsAux, ih]

theorem strContains_parts (pre mid post : String) :
    strContains (pre ++ (mid ++ post)) mid = true := by
  unfold strContains
  rw [String.data_append, String.data_append]
  exact strContainsAux_append_left _ _ _
    (strContainsAux_of_isPrefixOf _ _ (isPrefixOf_append_self _ _))

theorem mapDelete_idem (m : PendingMap) (k : String) :
    mapDelete (mapDelete m k) k = mapDelete m k := by
  simp [mapDelete, List.filter_filter]

theorem mapDelete_mapSet_self (m : PendingMap) (k : String) (v : PendingRequest) :
    mapDelete (mapSet m k v) k = mapDelete m k := by
  simp [mapSet, mapDelete, List.filter_filter, List.filter_cons]

/-- Discriminator for rejection effects. -/
def isRejectEffect : RpcEffect → Bool
  | .rejectWith _ _ => true
  | _ => false

/-- Discriminator for timer-cancellation effects. -/
def isClearTimerEffect : RpcEffect → Bool
  | .clearTimer _ => true
  | _ => false

theorem destroy_effects_rejects (l : PendingMap) :
    ((l.flatMap (fun e =>
        [RpcEffect.clearTimer e.2.timer,
         RpcEffect.rejectWith e.1 "RPC system shutting down"])).filter
      isRejectEffect) =
    l.map (fun e => RpcEffect.rejectWith e.1 "RPC system shutting down") := by
  induction l with
  | nil => rfl
  | cons e rest ih =>
    rw [List.flatMap_cons, List.filter_append]
    simp [List.filter, isRejectEffect, ih]

theorem destroy_effects_timers (l : PendingMap) :
    ((l.flatMap (fun e =>
        [RpcEffect.clearTimer e.2.timer,
         RpcEffect.rejectWith e.1 "RPC system shutting down"])).filter
      isClearTimerEffect) =
    l.map (fun e => RpcEffect.clearTimer e.2.timer) := by
  induction l with
  | nil => rfl
  | cons e rest ih =>
    rw [List.flatMap_cons, List.filter_append]
    simp [List.filter, isClearTimerEffect, ih]

/-! ## Claim theorems: RPC correlator -/

/-- Claim C3: for every inbound `rpc-response` message on the module channel,
a registered pending entry under its requestId is resolved with the message's
payload, its timer is cancelled and the entry is removed, so a later reply
with the same id finds no entry and changes nothing (first-response-wins);
a message with an unregistered id changes nothing and raises no error. -/
theorem rpc_response_first_wins (pending : PendingMap) (m : MsgObj)
    (ht : m.type = "rpc-response") :
    (∀ p, mapGet pending m.requestId = some p →
      handleMessage pending (.obj m) =
        (mapDelete pending m.requestId,
         [.clearTimer p.timer, .resolveWith m.requestId m]) ∧
      mapGet (mapDelete pending m.requestId) m.requestId = none ∧
      (∀ m2 : MsgObj, m2.requestId = m.requestId →
        handleMessage (mapDelete pending m.requestId) (.obj m2) =
          (mapDelete pending m.requestId, []))) ∧
    (mapGet pending m.requestId = none →
      handleMessage pending (.obj m) = (pending, [])) := by
  constructor
  · intro p hp
    refine ⟨by simp [handleMessage, ht, hp], mapGet_mapDelete_self _ _, ?_⟩
    intro m2 h2
    exact handleMessage_deleted_noop _ _ (h2 ▸ mapGet_mapDelete_self pending m.requestId)
  · intro hnone
    simp [handleMessage, ht, hnone]

/-- Witness for C3 at a concrete pending map and message. -/
theorem rpc_response_first_wins_witness :
    handleMessage [("r1", ⟨5⟩)]
        (.obj ⟨"rpc-response", "r1", true, none, none, none, none, none⟩) =
      ([], [.clearTimer 5,
            .resolveWith "r1" ⟨"rpc-response", "r1", true, none, none, none, none, none⟩]) ∧
    handleMessage []
        (.obj ⟨"rpc-response", "r1", true, none, none, none, none, none⟩) =
      ([], []) := by
  have h := rpc_response_first_wins [("r1", ⟨5⟩)]
    ⟨"rpc-response", "r1", true, none, none, none, none, none⟩ rfl
  have h1 := (h.1 ⟨5⟩ (by decide)).1
  have h2 := (h.1 ⟨5⟩ (by decide)).2.2
    ⟨"rpc-response", "r1", true, none, none, none, none, none⟩ rfl
  constructor
  · simpa [mapDelete] using h1
  · simpa [mapDelete] using h2

theorem isPrefixOf_self (l : List Char) : l.isPrefixOf l = true := by
  have h := isPrefixOf_append_self l []
  rwa [List.append_nil] at h

theorem strContains_suffix (pre mid : String) :
    strContains (pre ++ mid) mid = true := by
  unfold strContains
  rw [String.data_append]
  exact strContainsAux_append_left _ _ _
    (strContainsAux_of_isPrefixOf _ _ (isPrefixOf_self _))

/-- Claim C7: an rpc.call with no matching response within timeoutMs rejects
with a message naming the method, the configured timeout value and the need
for an active responder, and removes its pending entry so a late-arriving
reply for that id is a no-op; an emission failure immediately rejects,
cancels the timer and removes the pending entry. -/
theorem rpc_call_timeout_and_emit_failure (pending : PendingMap)
    (requestId method err : String) (timeoutMs timer : Nat) (m : MsgObj)
    (_hm : m.type = "rpc-response") (hid : m.requestId = requestId) :
    (callOnTimeout (callRegister pending requestId timer) requestId method
        timeoutMs).2 =
      [.rejectWith requestId (timeoutMessage method timeoutMs)] ∧
    mapGet (callOnTimeout (callRegister pending requestId timer) requestId
        method timeoutMs).1 requestId = none ∧
    handleMessage (callOnTimeout (callRegister pending requestId timer)
        requestId method timeoutMs).1 (.obj m) =
      ((callOnTimeout (callRegister pending requestId timer) requestId method
          timeoutMs).1, []) ∧
    strContains (timeoutMessage method timeoutMs) method = true ∧
    strContains (timeoutMessage method timeoutMs)
      (toString timeoutMs ++ "ms") = true ∧
    strContains (timeoutMessage method timeoutMs)
      "Ensure a GM user has the foundry-mcp-bridge module active in a browser."
      = true ∧
    callOnEmitFailure (callRegister pending requestId timer) requestId timer
        err =
      (mapDelete pending requestId,
       [.clearTimer timer, .rejectWith requestId err]) ∧
    mapGet (mapDelete pending requestId) requestId = none := by
  refine ⟨rfl, ?_, ?_, ?_, ?_, ?_, ?_, mapGet_mapDelete_self _ _⟩
  · exact mapGet_mapDelete_self _ _
  · exact handleMessage_deleted_noop _ _
      (hid ▸ mapGet_mapDelete_self (callRegister pending requestId timer) requestId)
  · have h : timeoutMessage method timeoutMs =
        "RPC call \"" ++ (method ++ ("\" timed out after " ++
          (toString timeoutMs ++
           "ms. Ensure a GM user has the foundry-mcp-bridge module active in a browser."))) := by
      simp [timeoutMessage, String.append_assoc]
    rw [h]
    exact strContains_parts _ _ _
  · have hsplit : ("ms. Ensure a GM user has the foundry-mcp-bridge module active in a browser." : String) =
        "ms" ++ ". Ensure a GM user has the foundry-mcp-bridge module active in a browser." := by decide
    have h : timeoutMessage method timeoutMs =
        ("RPC call \"" ++ method ++ "\" timed out after ") ++
          ((toString timeoutMs ++ "ms") ++
           ". Ensure a GM user has the foundry-mcp-bridge module active in a browser.") := by
      simp [timeoutMessage, hsplit, String.append_assoc]
    rw [h]
    exact strContains_parts _ _ _
  · have hsplit : ("ms. Ensure a GM user has the foundry-mcp-bridge module active in a browser." : String) =
        "ms. " ++ "Ensure a GM user has the foundry-mcp-bridge module active in a browser." := by decide
    have h : timeoutMessage method timeoutMs =
        ("RPC call \"" ++ method ++ "\" timed out after " ++ toString timeoutMs ++ "ms. ") ++
          "Ensure a GM user has the foundry-mcp-bridge module active in a browser." := by
      simp [timeoutMessage, hsplit, String.append_assoc]
    rw [h]
    exact strContains_suffix _ _
  · simp [callOnEmitFailure, callRegister, mapDelete_mapSet_self]

/-- Witness for C7 at concrete inputs. -/
theorem rpc_call_timeout_and_emit_failure_witness :
    mapGet (callOnTimeout (callRegister [] "r9" 3) "r9" "eval" 15000).1 "r9" =
      none ∧
    strContains (timeoutMessage "eval" 15000) "eval" = true ∧
    strContains (timeoutMessage "eval" 15000) (toString 15000 ++ "ms") = true ∧
    callOnEmitFailure (callRegister [] "r9" 3) "r9" 3 "emit boom" =
      ([], [.clearTimer 3, .rejectWith "r9" "emit boom"]) := by
  have h := rpc_call_timeout_and_emit_failure [] "r9" "eval" "emit boom" 15000 3
    ⟨"rpc-response", "r9", false, none, none, none, none, none⟩ rfl rfl
  exact ⟨h.2.1, h.2.2.2.1, h.2.2.2.2.1, h.2.2.2.2.2.2.1⟩

/-- Claim C8: destroy rejects all K pending requests with the shutdown error,
cancels each of their timers, leaves the pending map empty, detaches the
shared listener, and is idempotent and safe with zero pending requests. -/
theorem rpc_destroy_rejects_all (s : RpcSysState) :
    (destroy s).1.pending = [] ∧
    (destroy s).1.hasMessageHandler = false ∧
    ((destroy s).2.filter isRejectEffect) =
      s.pending.map (fun e => .rejectWith e.1 "RPC system shutting down") ∧
    ((destroy s).2.filter isClearTimerEffect) =
      s.pending.map (fun e => .clearTimer e.2.timer) ∧
    (s.hasMessageHandler = true → RpcEffect.detachListener ∈ (destroy s).2) ∧
    destroy (destroy s).1 = ((destroy s).1, []) := by
  cases hh : s.hasMessageHandler
  · refine ⟨by simp [destroy, hh], ?_, ?_, ?_, ?_, ?_⟩
    · simp [destroy, hh]
    · simp only [destroy, hh]
      simpa using destroy_effects_rejects s.pending
    · simp only [destroy, hh]
      simpa using destroy_effects_timers s.pending
    · intro hcontra
      simp [hh] at hcontra
    · simp [destroy, hh]
  · refine ⟨by simp [destroy, hh], ?_, ?_, ?_, ?_, ?_⟩
    · simp [destroy, hh]
    · simp only [destroy, hh]
      simp [List.filter_append, destroy_effects_rejects s.pending, isRejectEffect]
    · simp only [destroy, hh]
      simp [List.filter_append, destroy_effects_timers s.pending, isClearTimerEffect]
    · intro _
      simp [destroy, hh]
    · simp [destroy, hh]

/-- Witness for C8 with two pending requests and an attached listener. -/
theorem rpc_destroy_rejects_all_witness :
    (destroy ⟨[("a", ⟨1⟩), ("b", ⟨2⟩)], true, true⟩).1.pending = [] ∧
    ((destroy ⟨[("a", ⟨1⟩), ("b", ⟨2⟩)], true, true⟩).2.filter isRejectEffect) =
      [.rejectWith "a" "RPC system shutting down",
       .rejectWith "b" "RPC system shutting down"] ∧
    RpcEffect.detachListener ∈
      (destroy ⟨[("a", ⟨1⟩), ("b", ⟨2⟩)], true, true⟩).2 ∧
    destroy (destroy ⟨[("a", ⟨1⟩), ("b", ⟨2⟩)], true, true⟩).1 =
      ((destroy ⟨[("a", ⟨1⟩), ("b", ⟨2⟩)], true, true⟩).1, []) := by
  have h := rpc_destroy_rejects_all ⟨[("a", ⟨1⟩), ("b", ⟨2⟩)], true, true⟩
  exact ⟨h.1, h.2.2.1, h.2.2.2.2.1 rfl, h.2.2.2.2.2⟩

/-- Claim C9: ping never throws: every failure path (connection failure,
emission failure, or no pong within the window) resolves alive:false; a
matching rpc-pong within the window resolves alive:true with the responder's
moduleVersion and userId; the temporary pong listener never remains attached
after resolution. -/
theorem rpc_ping_never_throws (requestId : String) (env : PingEnv) :
    (ping requestId env).threw = false ∧
    (ping requestId env).noListenerRemains = true ∧
    (∀ e, env = .connectFail e →
      (ping requestId env).result = ⟨false, none, none⟩) ∧
    (∀ e, env = .emitFail e →
      (ping requestId env).result = ⟨false, none, none⟩) ∧
    (∀ msgs, env = .window msgs → findPong requestId msgs = none →
      (ping requestId env).result = ⟨false, none, none⟩) ∧
    (∀ msgs m, env = .window msgs → findPong requestId msgs = some m →
      (ping requestId env).result = ⟨true, m.moduleVersion, m.userId⟩) := by
  refine ⟨?_, ?_, ?_, ?_, ?_, ?_⟩
  · cases env with
    | connectFail e => rfl
    | emitFail e => rfl
    | window msgs => cases hf : findPong requestId msgs <;> simp [ping, hf]
  · cases env with
    | connectFail e => rfl
    | emitFail e => rfl
    | window msgs => cases hf : findPong requestId msgs <;> simp [ping, hf]
  · intro e he
    subst he
    rfl
  · intro e he
    subst he
    rfl
  · intro msgs he hf
    subst he
    simp [ping, hf]
  · intro msgs m he hf
    subst he
    simp [ping, hf]

/-- Witness for C9: a matching pong and a connection failure. -/
theorem rpc_ping_never_throws_witness :
    (ping "p1" (.window [.obj ⟨"rpc-pong", "p1", true, none, none, none,
        some "1.2.3", some "gm"⟩])).result = ⟨true, some "1.2.3", some "gm"⟩ ∧
    (ping "p1" (.connectFail "probe down")).result = ⟨false, none, none⟩ ∧
    (ping "p1" (.connectFail "probe down")).threw = false ∧
    (ping "p1" (.window [])).result = ⟨false, none, none⟩ := by
  have h1 := rpc_ping_never_throws "p1" (.window [.obj ⟨"rpc-pong", "p1",
    true, none, none, none, some "1.2.3", some "gm"⟩])
  have h2 := rpc_ping_never_throws "p1" (.connectFail "probe down")
  have h3 := rpc_ping_never_throws "p1" (.window [])
  exact ⟨h1.2.2.2.2.2 [.obj ⟨"rpc-pong", "p1", true, none, none, none,
      some "1.2.3", some "gm"⟩] ⟨"rpc-pong", "p1", true, none, none, none,
      some "1.2.3", some "gm"⟩ rfl (by decide),
    h2.2.2.1 "probe down" rfl, h2.1, h3.2.2.2.2.1 [] rfl rfl⟩

/-! ## Claim theorems: session/transport manager -/

/-- Discriminator for the fresh-attempt action. -/
def isStartAction : EnsureAction → Bool
  | .startNew _ => true
  | _ => false

theorem isReady_update_promise (s : ClientState) (p : Option Nat) :
    isReady { s with connectPromise := p } = isReady s := rfl

theorem runEnsureCalls_all_join (ids : List Nat) (s : ClientState) (i : Nat)
    (h1 : isReady s = false) (h2 : s.connectPromise = some i) :
    runEnsureCalls s ids = (s, ids.map fun _ => EnsureAction.joinExisting i) := by
  induction ids with
  | nil => rfl
  | cons j rest ih =>
    have hstep : ensureConnectedSync s j = (s, .joinExisting i) := by
      simp [ensureConnectedSync, h1, h2]
    simp [runEnsureCalls, hstep, ih]

theorem filter_start_join (rest : List Nat) (i : Nat) :
    (rest.map (fun _ => EnsureAction.joinExisting i)).filter isStartAction
      = [] := by
  induction rest with
  | nil => rfl
  | cons j r ih => simp [List.filter, isStartAction, ih]

/-- Claim C1: ensureConnected is single-flight: a burst of N logically
concurrent calls while disconnected performs exactly one fresh connection
attempt — the first call starts it and every later call joins that same
in-flight attempt (hence all N settle with its outcome) — and a call made
while the client is ready with a live channel returns immediately with no
attempt at all. -/
theorem ensureConnected_single_flight (s : ClientState) (i : Nat)
    (rest : List Nat) (h1 : isReady s = false)
    (h2 : s.connectPromise = none) :
    (runEnsureCalls s (i :: rest)).2 =
      .startNew i :: rest.map (fun _ => .joinExisting i) ∧
    ((runEnsureCalls s (i :: rest)).2.filter isStartAction).length = 1 ∧
    (∀ t : ClientState, isReady t = true → ∀ f : Nat,
      ensureConnectedSync t f = (t, .noop)) := by
  have hstep : ensureConnectedSync s i =
      ({ s with connectPromise := some i }, .startNew i) := by
    simp [ensureConnectedSync, h1, h2]
  have hrest := runEnsureCalls_all_join rest
    { s with connectPromise := some i } i
    (by rw [isReady_update_promise]; exact h1) rfl
  have hmain : (runEnsureCalls s (i :: rest)).2 =
      .startNew i :: rest.map (fun _ => .joinExisting i) := by
    simp [runEnsureCalls, hstep, hrest]
  refine ⟨hmain, ?_, ?_⟩
  · rw [hmain]
    simp [List.filter, isStartAction, filter_start_join]
  · intro t ht f
    simp [ensureConnectedSync, ht]

/-- Witness for C1: three concurrent calls while disconnected, and a call in
the ready state. -/
theorem ensureConnected_single_flight_witness :
    (runEnsureCalls ⟨none, none, .disconnected, none, none, none⟩
        [1, 2, 3]).2 =
      [.startNew 1, .joinExisting 1, .joinExisting 1] ∧
    ensureConnectedSync
        ⟨some ⟨true⟩, some "tok", .ready, none, some "gm", none⟩ 9 =
      (⟨some ⟨true⟩, some "tok", .ready, none, some "gm", none⟩, .noop) := by
  have h := ensureConnected_single_flight
    ⟨none, none, .disconnected, none, none, none⟩ 1 [2, 3] rfl rfl
  exact ⟨h.1, h.2.2 ⟨some ⟨true⟩, some "tok", .ready, none, some "gm", none⟩
    rfl 9⟩

/-- Claim C10: when a connection attempt started by ensureConnected settles
— resolved or rejected — the shared in-flight reference is cleared, so a
later ensureConnected call made while the client is not ready begins a
fresh attempt instead of observing the settled one; a single failed attempt
cannot permanently wedge the client. -/
theorem ensureConnected_settle_clears_promise (cfg : FoundryConfig)
    (s : ClientState) (env : ConnectEnv) (f : Nat)
    (h1 : isReady s = false)
    (h2 : isReady (ensureConnectedRun cfg s env).1 = false) :
    (ensureConnectedRun cfg s env).1.connectPromise = none ∧
    ensureConnectedSync (ensureConnectedRun cfg s env).1 f =
      ({ (ensureConnectedRun cfg s env).1 with connectPromise := some f },
       .startNew f) := by
  have hrun : (ensureConnectedRun cfg s env).1 =
      connectSettled (connect cfg s env).1 := by
    simp [ensureConnectedRun, h1]
  have hp : (ensureConnectedRun cfg s env).1.connectPromise = none := by
    rw [hrun]
    rfl
  exact ⟨hp, by simp [ensureConnectedSync, h2, hp]⟩

/-- Witness for C10: a failed attempt (unreachable status probe) from the
disconnected state is followed by a fresh attempt. -/
theorem ensureConnected_settle_clears_promise_witness :
    (ensureConnectedRun ⟨"http://x", "u", "p"⟩
        ⟨none, none, .disconnected, none, none, none⟩
        ⟨.httpError 500, .ok "t", .sessionOk "gm"⟩).1.connectPromise = none ∧
    (ensureConnectedSync (ensureConnectedRun ⟨"http://x", "u", "p"⟩
        ⟨none, none, .disconnected, none, none, none⟩
        ⟨.httpError 500, .ok "t", .sessionOk "gm"⟩).1 7).2 = .startNew 7 := by
  have h := ensureConnected_settle_clears_promise ⟨"http://x", "u", "p"⟩
    ⟨none, none, .disconnected, none, none, none⟩
    ⟨.httpError 500, .ok "t", .sessionOk "gm"⟩ 7 rfl (by decide)
  exact ⟨h.1, by rw [h.2]⟩

theorem socketConnected_of_isReady (s : ClientState) (h : isReady s = true) :
    socketConnected s = true := by
  have h2 := h
  simp [isReady, Bool.and_eq_true] at h2
  exact h2.2

theorem ensureConnectedRun_ready (cfg : FoundryConfig) (s : ClientState)
    (env : ConnectEnv) (h : isReady s = true) :
    ensureConnectedRun cfg s env = (s, .ok ()) := by
  simp [ensureConnectedRun, h]

/-! ## Claim theorems: document mutation gateway -/

/-- Claim C2: a modifyDocument call whose first attempt fails with a
transport-indicating condition (timeout, "disconnected", "Not connected",
or the socket not connected at failure time) clears the session token, sets
state disconnected, discards the socket, re-establishes the connection via
ensureConnected, and retries the emission exactly once; the retry's outcome
— success or second failure — is what the caller gets, with no third
attempt. -/
theorem modifyDocument_transport_retry (cfg : FoundryConfig)
    (s : ClientState) (env retryEnv : ConnectEnv) (drop : Bool)
    (first second : EmitOutcome) (m : String) (s2 : ClientState)
    (hready : isReady s = true)
    (hfail : emitModifyDocument (afterEnsureState s drop) first = .error m)
    (htrans : isTransportFailure (afterEnsureState s drop) m = true)
    (hretry : ensureConnectedRun cfg (teardown (afterEnsureState s drop))
        retryEnv = (s2, .ok ())) :
    modifyDocument cfg s env drop first retryEnv second =
      ⟨s2, emitModifyDocument s2 second, 2, 1,
       some (teardown (afterEnsureState s drop))⟩ ∧
    (teardown (afterEnsureState s drop)).sessionId = none ∧
    (teardown (afterEnsureState s drop)).state = .disconnected ∧
    (teardown (afterEnsureState s drop)).socket = none := by
  refine ⟨?_, rfl, rfl, rfl⟩
  simp [modifyDocument, ensureConnectedRun_ready cfg s env hready, hfail,
    htrans, hretry]

/-- Witness for C2: a ready client whose first attempt times out, followed
by a successful reconnect and a successful retry. -/
theorem modifyDocument_transport_retry_witness :
    modifyDocument ⟨"http://x", "u", "p"⟩
        ⟨some ⟨true⟩, some "tok", .ready, none, some "gm", none⟩
        ⟨.ok ⟨true, "12"⟩, .ok "t2", .sessionOk "gm2"⟩ false .timeout
        ⟨.ok ⟨true, "12"⟩, .ok "t2", .sessionOk "gm2"⟩
        (.reply ⟨some ["d1"], none⟩) =
      ⟨⟨some ⟨true⟩, some "t2", .ready, some ⟨true, "12"⟩, some "gm2", none⟩,
       .ok ⟨some ["d1"], none⟩, 2, 1,
       some ⟨none, none, .disconnected, none, some "gm", none⟩⟩ := by
  have h := modifyDocument_transport_retry ⟨"http://x", "u", "p"⟩
    ⟨some ⟨true⟩, some "tok", .ready, none, some "gm", none⟩
    ⟨.ok ⟨true, "12"⟩, .ok "t2", .sessionOk "gm2"⟩
    ⟨.ok ⟨true, "12"⟩, .ok "t2", .sessionOk "gm2"⟩ false .timeout
    (.reply ⟨some ["d1"], none⟩)
    "Foundry socket request timed out after 30s"
    ⟨some ⟨true⟩, some "t2", .ready, some ⟨true, "12"⟩, some "gm2", none⟩
    rfl rfl (by decide) rfl
  exact h.1

/-- Claim C4 (amended): a modifyDocument call whose callback reply carries an
error object fails with the reply's embedded message (or the fallback
"Unknown Foundry error" when the message is absent or empty) with zero
reconnect attempts, provided that message does not itself contain one of the
transport-indicating substrings "timed out", "disconnected" or
"Not connected" (the retry decision is a substring match on the thrown
message, so an error reply whose message matches is misclassified as a
transport fault and does trigger the teardown-and-retry path). -/
theorem modifyDocument_app_error_no_retry (cfg : FoundryConfig)
    (s : ClientState) (env retryEnv : ConnectEnv) (second : EmitOutcome)
    (resp : DocumentSocketResponse) (e : SocketErr)
    (hready : isReady s = true)
    (herr : resp.error = some e)
    (h1 : strContains (socketErrMessage e) "timed out" = false)
    (h2 : strContains (socketErrMessage e) "disconnected" = false)
    (h3 : strContains (socketErrMessage e) "Not connected" = false) :
    modifyDocument cfg s env false (.reply resp) retryEnv second =
      ⟨s, .error (socketErrMessage e), 1, 0, none⟩ := by
  have hsc := socketConnected_of_isReady s hready
  simp [modifyDocument, ensureConnectedRun_ready cfg s env hready,
    afterEnsureState, emitModifyDocument, hsc, herr, isTransportFailure,
    h1, h2, h3]

/-- Witness for C4: an application error with an embedded message and one
with the message absent (fallback). -/
theorem modifyDocument_app_error_no_retry_witness :
    modifyDocument ⟨"http://x", "u", "p"⟩
        ⟨some ⟨true⟩, some "tok", .ready, none, some "gm", none⟩
        ⟨.ok ⟨true, "12"⟩, .ok "t2", .sessionOk "gm2"⟩ false
        (.reply ⟨none, some ⟨some "Permission denied"⟩⟩)
        ⟨.ok ⟨true, "12"⟩, .ok "t2", .sessionOk "gm2"⟩ .timeout =
      ⟨⟨some ⟨true⟩, some "tok", .ready, none, some "gm", none⟩,
       .error "Permission denied", 1, 0, none⟩ ∧
    modifyDocument ⟨"http://x", "u", "p"⟩
        ⟨some ⟨true⟩, some "tok", .ready, none, some "gm", none⟩
        ⟨.ok ⟨true, "12"⟩, .ok "t2", .sessionOk "gm2"⟩ false
        (.reply ⟨none, some ⟨none⟩⟩)
        ⟨.ok ⟨true, "12"⟩, .ok "t2", .sessionOk "gm2"⟩ .timeout =
      ⟨⟨some ⟨true⟩, some "tok", .ready, none, some "gm", none⟩,
       .error "Unknown Foundry error", 1, 0, none⟩ := by
  constructor
  · exact modifyDocument_app_error_no_retry ⟨"http://x", "u", "p"⟩
      ⟨some ⟨true⟩, some "tok", .ready, none, some "gm", none⟩
      ⟨.ok ⟨true, "12"⟩, .ok "t2", .sessionOk "gm2"⟩
      ⟨.ok ⟨true, "12"⟩, .ok "t2", .sessionOk "gm2"⟩ .timeout
      ⟨none, some ⟨some "Permission denied"⟩⟩ ⟨some "Permission denied"⟩
      rfl rfl (by decide) (by decide) (by decide)
  · exact modifyDocument_app_error_no_retry ⟨"http://x", "u", "p"⟩
      ⟨some ⟨true⟩, some "tok", .ready, none, some "gm", none⟩
      ⟨.ok ⟨true, "12"⟩, .ok "t2", .sessionOk "gm2"⟩
      ⟨.ok ⟨true, "12"⟩, .ok "t2", .sessionOk "gm2"⟩ .timeout
      ⟨none, some ⟨none⟩⟩ ⟨none⟩
      rfl rfl (by decide) (by decide) (by decide)

/-- Counterexample to C4 as stated: an application-level error reply whose
embedded message is "Request disconnected by module" matches the
"disconnected" substring test, so the gateway tears down and retries —
one reconnect cycle, not zero. -/
theorem modifyDocument_app_error_retry_cex :
    (modifyDocument ⟨"http://x", "u", "p"⟩
        ⟨some ⟨true⟩, some "tok", .ready, none, some "gm", none⟩
        ⟨.ok ⟨true, "12"⟩, .ok "t2", .sessionOk "gm2"⟩ false
        (.reply ⟨none, some ⟨some "Request disconnected by module"⟩⟩)
        ⟨.ok ⟨true, "12"⟩, .ok "t2", .sessionOk "gm2"⟩
        (.reply ⟨none, some ⟨some "Request disconnected by module"⟩⟩)).reconnects
      = 1 ∧
    (1 : Nat) ≠ 0 := by
  exact ⟨by decide, by decide⟩

/-- Claim C5 (amended): every step failure of connect() aborts the whole
attempt — the error propagates and the attempt never reaches ready — but
only the inactive-world and session-rejection failures reset state to
disconnected: an HTTP probe failure or an authentication failure leaves
state authenticating, and a channel timeout or connect error leaves state
connecting.  In particular an active:false status probe makes connect()
fail with the no-active-world error with state ending disconnected. -/
theorem connect_step_failure_states (cfg : FoundryConfig) (s : ClientState)
    (env : ConnectEnv) :
    (∀ info, env.status = .ok info → info.active = false →
      connect cfg s env =
        ({ s with state := .disconnected, worldInfo := some info },
         .error "Foundry VTT has no active world. Please load a world first.")) ∧
    (∀ e, (connect cfg s env).2 = .error e →
      (connect cfg s env).1.state ≠ .ready) ∧
    (∀ code, env.status = .httpError code →
      (connect cfg s env).1.state = .authenticating) ∧
    (∀ info, env.status = .ok info → info.active = true →
      (∀ b, env.auth = .noCookie b →
        (connect cfg s env).1.state = .authenticating) ∧
      (∀ c, env.auth = .cookieNoMatch c →
        (connect cfg s env).1.state = .authenticating) ∧
      (∀ tok, env.auth = .ok tok →
        (env.sock = .timeout →
          (connect cfg s env).1.state = .connecting) ∧
        (∀ msg, env.sock = .connectError msg →
          (connect cfg s env).1.state = .connecting) ∧
        (env.sock = .sessionRejected →
          (connect cfg s env).1.state = .disconnected))) := by
  obtain ⟨st, au, so⟩ := env
  refine ⟨?_, ?_, ?_, ?_⟩
  · intro info hst hact
    cases hst
    simp [connect, fetchStatus, hact]
  · intro e herr
    cases st with
    | httpError code =>
      simp [connect, fetchStatus]
    | ok info =>
      by_cases hact : info.active = false
      · simp [connect, fetchStatus, hact]
      · cases au with
        | noCookie b => simp [connect, fetchStatus, authenticate, hact]
        | cookieNoMatch c => simp [connect, fetchStatus, authenticate, hact]
        | ok tok =>
          cases so with
          | timeout => simp [connect, fetchStatus, authenticate, connectSocket, hact]
          | connectError msg => simp [connect, fetchStatus, authenticate, connectSocket, hact]
          | sessionRejected => simp [connect, fetchStatus, authenticate, connectSocket, hact]
          | sessionOk uid =>
            simp [connect, fetchStatus, authenticate, connectSocket, hact] at herr
  · intro code hst
    cases hst
    simp [connect, fetchStatus]
  · intro info hst hact
    cases hst
    refine ⟨?_, ?_, ?_⟩
    · intro b hau
      cases hau
      simp [connect, fetchStatus, authenticate, hact]
    · intro c hau
      cases hau
      simp [connect, fetchStatus, authenticate, hact]
    · intro tok hau
      cases hau
      refine ⟨?_, ?_, ?_⟩
      · intro hso
        cases hso
        simp [connect, fetchStatus, authenticate, connectSocket, hact]
      · intro msg hso
        cases hso
        simp [connect, fetchStatus, authenticate, connectSocket, hact]
      · intro hso
        cases hso
        simp [connect, fetchStatus, authenticate, connectSocket, hact]

/-- Witness for C5 (amended): the inactive-world path at concrete inputs. -/
theorem connect_step_failure_states_witness :
    connect ⟨"http://x", "u", "p"⟩ ⟨none, none, .disconnected, none, none, none⟩
        ⟨.ok ⟨false, "12"⟩, .ok "t", .sessionOk "gm"⟩ =
      (⟨none, none, .disconnected, some ⟨false, "12"⟩, none, none⟩,
       .error "Foundry VTT has no active world. Please load a world first.") ∧
    (connect ⟨"http://x", "u", "p"⟩ ⟨none, none, .disconnected, none, none, none⟩
        ⟨.httpError 500, .ok "t", .sessionOk "gm"⟩).1.state = .authenticating := by
  have h1 := connect_step_failure_states ⟨"http://x", "u", "p"⟩
    ⟨none, none, .disconnected, none, none, none⟩
    ⟨.ok ⟨false, "12"⟩, .ok "t", .sessionOk "gm"⟩
  have h2 := connect_step_failure_states ⟨"http://x", "u", "p"⟩
    ⟨none, none, .disconnected, none, none, none⟩
    ⟨.httpError 500, .ok "t", .sessionOk "gm"⟩
  exact ⟨h1.1 ⟨false, "12"⟩ rfl rfl, h2.2.2.1 500 rfl⟩

/-- Counterexample to C5 as stated: an HTTP probe failure aborts the attempt
with an error, but the connection state ends authenticating, not
disconnected. -/
theorem connect_probe_failure_state_cex :
    (connect ⟨"http://x", "u", "p"⟩ ⟨none, none, .disconnected, none, none, none⟩
        ⟨.httpError 500, .ok "t", .sessionOk "gm"⟩).1.state = .authenticating ∧
    (connect ⟨"http://x", "u", "p"⟩ ⟨none, none, .disconnected, none, none, none⟩
        ⟨.httpError 500, .ok "t", .sessionOk "gm"⟩).2 =
      .error "Foundry VTT is not reachable at http://x (HTTP 500)" ∧
    ConnectionState.authenticating ≠ ConnectionState.disconnected := by
  refine ⟨rfl, rfl, by decide⟩

theorem socketConnected_socketDropped (s : ClientState) :
    socketConnected (socketDropped s) = false := by
  cases hs : s.socket <;> simp [socketDropped, socketConnected, hs]

/-- Claim C6 (amended): the retry-once-on-transport-fault policy of
modifyDocument is replicated by the callback-only helper emitSocket and the
multi-argument helper emitSocketArgs — a transport-indicating first failure
triggers one full teardown-reconnect-retry cycle in each — but NOT by the
fire-and-forget helper emitSocketRaw, which performs no retry at all: it
never reconnects, and when the socket is not connected after the ensure it
throws "Not connected to Foundry VTT" immediately. -/
theorem socket_helpers_retry_policy (cfg : FoundryConfig) (s : ClientState)
    (env retryEnv : ConnectEnv) (drop : Bool) (event : String)
    (first second : EmitOutcome) (m : String) (s2 : ClientState)
    (hready : isReady s = true)
    (hfail : emitSocketOnce (afterEnsureState s drop) event first = .error m)
    (htrans : isTransportFailure (afterEnsureState s drop) m = true)
    (hretry : ensureConnectedRun cfg (teardown (afterEnsureState s drop))
        retryEnv = (s2, .ok ())) :
    emitSocket cfg s env drop event first retryEnv second =
      ⟨s2, emitSocketOnce s2 event second, 2, 1⟩ ∧
    emitSocketArgs cfg s env drop event first retryEnv second =
      ⟨s2, emitSocketOnce s2 event second, 2, 1⟩ ∧
    (∀ (cfg2 : FoundryConfig) (s3 : ClientState) (env2 : ConnectEnv)
        (drop2 : Bool), (emitSocketRaw cfg2 s3 env2 drop2).reconnects = 0) ∧
    emitSocketRaw cfg s env true =
      ⟨socketDropped s, .error "Not connected to Foundry VTT", 1, 0⟩ := by
  refine ⟨?_, ?_, ?_, ?_⟩
  · simp [emitSocket, ensureConnectedRun_ready cfg s env hready, hfail,
      htrans, hretry]
  · simp [emitSocketArgs, ensureConnectedRun_ready cfg s env hready, hfail,
      htrans, hretry]
  · intro cfg2 s3 env2 drop2
    unfold emitSocketRaw
    cases h : (ensureConnectedRun cfg2 s3 env2).2 with
    | error e => simp [h]
    | ok u =>
      by_cases hc : socketConnected
          (afterEnsureState (ensureConnectedRun cfg2 s3 env2).1 drop2) = false <;>
        simp [h, hc]
  · simp [emitSocketRaw, ensureConnectedRun_ready cfg s env hready,
      afterEnsureState, socketConnected_socketDropped]

/-- Witness for C6 (amended): a ready client whose callback-style first
attempt times out, reconnects once and retries in both emitSocket and
emitSocketArgs. -/
theorem socket_helpers_retry_policy_witness :
    emitSocket ⟨"http://x", "u", "p"⟩
        ⟨some ⟨true⟩, some "tok", .ready, none, some "gm", none⟩
        ⟨.ok ⟨true, "12"⟩, .ok "t2", .sessionOk "gm2"⟩ false "manageCompendium"
        .timeout ⟨.ok ⟨true, "12"⟩, .ok "t2", .sessionOk "gm2"⟩
        (.reply ⟨some ["ok"], none⟩) =
      ⟨⟨some ⟨true⟩, some "t2", .ready, some ⟨true, "12"⟩, some "gm2", none⟩,
       .ok ⟨some ["ok"], none⟩, 2, 1⟩ ∧
    emitSocketArgs ⟨"http://x", "u", "p"⟩
        ⟨some ⟨true⟩, some "tok", .ready, none, some "gm", none⟩
        ⟨.ok ⟨true, "12"⟩, .ok "t2", .sessionOk "gm2"⟩ false "manageFiles"
        .timeout ⟨.ok ⟨true, "12"⟩, .ok "t2", .sessionOk "gm2"⟩
        (.reply ⟨some ["ok"], none⟩) =
      ⟨⟨some ⟨true⟩, some "t2", .ready, some ⟨true, "12"⟩, some "gm2", none⟩,
       .ok ⟨some ["ok"], none⟩, 2, 1⟩ := by
  have h1 := socket_helpers_retry_policy ⟨"http://x", "u", "p"⟩
    ⟨some ⟨true⟩, some "tok", .ready, none, some "gm", none⟩
    ⟨.ok ⟨true, "12"⟩, .ok "t2", .sessionOk "gm2"⟩
    ⟨.ok ⟨true, "12"⟩, .ok "t2", .sessionOk "gm2"⟩ false "manageCompendium"
    .timeout (.reply ⟨some ["ok"], none⟩)
    "Foundry socket request \"manageCompendium\" timed out after 30s"
    ⟨some ⟨true⟩, some "t2", .ready, some ⟨true, "12"⟩, some "gm2", none⟩
    rfl rfl (by decide) rfl
  have h2 := socket_helpers_retry_policy ⟨"http://x", "u", "p"⟩
    ⟨some ⟨true⟩, some "tok", .ready, none, some "gm", none⟩
    ⟨.ok ⟨true, "12"⟩, .ok "t2", .sessionOk "gm2"⟩
    ⟨.ok ⟨true, "12"⟩, .ok "t2", .sessionOk "gm2"⟩ false "manageFiles"
    .timeout (.reply ⟨some ["ok"], none⟩)
    "Foundry socket request \"manageFiles\" timed out after 30s"
    ⟨some ⟨true⟩, some "t2", .ready, some ⟨true, "12"⟩, some "gm2", none⟩
    rfl rfl (by decide) rfl
  exact ⟨h1.1, h2.2.1⟩

/-- Counterexample to C6 as stated: in emitSocketRaw a first attempt failing
with the transport-indicating "Not connected to Foundry VTT" condition (the
socket dropped between the ensure and the emission) propagates immediately
with zero teardown-reconnect-retry cycles, where the claim demands one. -/
theorem emitSocketRaw_no_retry_cex :
    emitSocketRaw ⟨"http://x", "u", "p"⟩
        ⟨some ⟨true⟩, some "tok", .ready, none, some "gm", none⟩
        ⟨.ok ⟨true, "12"⟩, .ok "t2", .sessionOk "gm2"⟩ true =
      ⟨⟨some ⟨false⟩, some "tok", .disconnected, none, some "gm", none⟩,
       .error "Not connected to Foundry VTT", 1, 0⟩ ∧
    (0 : Nat) ≠ 1 := by
  refine ⟨rfl, by decide⟩
